import Mathlib

/-!
Verification of the auto-repair workshop ERP backend (`backend/app`).

The development shallowly embeds the authentication core (`auth.py`), the
data-access layer (`queries.py`) and the relevant route handlers
(`main.py`).  The relational store is modelled as explicit Lean lists of
row structures; an operation that in Python mutates the store returns the
new store.  Python exceptions that a function may let escape are modelled
with `Except PyErr`; an uncaught exception is the `.error` constructor.
External collaborators (the `passlib` bcrypt context and the `jose` JWT
codec) are modelled by small definitions that follow their documented
behaviour, marked as such in their doc comments.
-/

namespace AutoRepair

/-- A Python exception that the embedded code may raise and that the
repository's code does not catch (`except JWTError` is the only handler in
`decode_access_token`, and `verify_password` has no handler at all). -/
inductive PyErr where
  /-- `ValueError`, e.g. from `UserRole(role)` on a value outside the enum. -/
  | valueError
  /-- A pydantic `ValidationError` from constructing `TokenData`. -/
  | validationError
  /-- passlib's `UnknownHashError` (a `ValueError` subclass) raised by
  `CryptContext.verify` on a hash string that no configured scheme
  recognises. -/
  | unknownHashError
deriving DecidableEq, Repr

/-- A JSON scalar value as it can appear in a JWT claim field. -/
inductive JVal where
  | jnum (n : Int)
  | jstr (s : String)
deriving DecidableEq, Repr

/-- `models.UserRole`: string enum with members `admin` and `worker`. -/
inductive UserRole where
  | admin
  | worker
deriving DecidableEq, Repr

/-- The `.value` of a `UserRole` member (it is a `str` enum). -/
def UserRole.val : UserRole → String
  | .admin => "admin"
  | .worker => "worker"

/-- Python's `UserRole(role)` enum call: returns the member whose value
equals `role`, raises `ValueError` otherwise (also on non-string input). -/
def pyUserRole : JVal → Except PyErr UserRole
  | .jstr "admin" => .ok .admin
  | .jstr "worker" => .ok .worker
  | _ => .error .valueError

/-- pydantic validation of an `int` field: an int passes, a numeric string
is coerced in lax mode, anything else raises `ValidationError`. -/
def pydanticInt : JVal → Except PyErr Int
  | .jnum n => .ok n
  | .jstr s =>
    match s.toInt? with
    | some n => .ok n
    | none => .error .validationError

/-- pydantic validation of a `str` field: a string passes, a number raises
`ValidationError` (pydantic v2 does not coerce int to str). -/
def pydanticStr : JVal → Except PyErr String
  | .jstr s => .ok s
  | .jnum _ => .error .validationError

/-- `models.TokenData`: the decoded JWT claim set. -/
structure TokenData where
  user_id : Int
  username : String
  role : UserRole
deriving DecidableEq, Repr

/-! Section: Model of the passlib bcrypt context (external collaborator)

`pwd_context = CryptContext(schemes=["bcrypt"])`.  A hash string is either
a well-formed bcrypt digest of some password under some salt, or a string
that no configured scheme recognises. -/

/-- A stored hash string: a well-formed bcrypt digest (identified by the
password it digests and the random salt used), or a malformed string that
bcrypt does not recognise. -/
inductive HashString where
  | bcrypt (password : String) (salt : Nat)
  | malformed (raw : String)
deriving DecidableEq, Repr

/-- Model of passlib's `CryptContext.hash`: produces a well-formed bcrypt
digest of the password under a fresh random salt (the salt is made an
explicit argument to model its nondeterminism). -/
def pwdContextHash (password : String) (salt : Nat) : HashString :=
  .bcrypt password salt

/-- Model of passlib's `CryptContext.verify`: on a well-formed bcrypt
digest it reports whether the candidate password matches the digested one
(salt-independent); on an unrecognised hash string it raises
`UnknownHashError`. -/
def pwdContextVerify (plain : String) (hashed : HashString) : Except PyErr Bool :=
  match hashed with
  | .bcrypt p _ => .ok (plain == p)
  | .malformed _ => .error .unknownHashError

/-- `auth.hash_password`: returns `pwd_context.hash(password)`. -/
def hash_password (password : String) (salt : Nat) : HashString :=
  pwdContextHash password salt

/-- `auth.verify_password`: returns `pwd_context.verify(plain_password,
hashed_password)` — with no exception handler around the call. -/
def verify_password (plain_password : String) (hashed_password : HashString) :
    Except PyErr Bool :=
  pwdContextVerify plain_password hashed_password

/-! Section: Model of the jose JWT codec (external collaborator) -/

/-- The payload dictionary carried by a token, restricted to the fields
this application reads and writes: the three identity claims (each
possibly absent or of an arbitrary JSON scalar type) and the `exp`
timestamp in seconds. -/
structure Payload where
  user_id : Option JVal
  username : Option JVal
  role : Option JVal
  exp : Option Nat
deriving DecidableEq, Repr

/-- A bearer-token string: either the encoding of some payload signed with
some key (`jwt.encode(payload, key, ...)`), or a string that is not a
well-formed JWT at all. -/
inductive JoseToken where
  | valid (payload : Payload) (key : String)
  | garbage (raw : String)
deriving DecidableEq, Repr

/-- The `JWTError` subclasses `jose.jwt.decode` can raise. -/
inductive JoseErr where
  | malformed
  | badSignature
  | expiredSignature
deriving DecidableEq, Repr

/-- Model of `jose.jwt.decode(token, key, algorithms=[...])` evaluated at
wall-clock time `now` (seconds): rejects non-JWT strings, rejects a
signature made with a different key, rejects a token whose `exp` claim is
strictly in the past (`exp < now` raises `ExpiredSignatureError`; a token
is still accepted at `now = exp`), and otherwise returns the payload. -/
def joseDecode (token : JoseToken) (key : String) (now : Nat) :
    Except JoseErr Payload :=
  match token with
  | .garbage _ => .error .malformed
  | .valid p k =>
    if k = key then
      match p.exp with
      | some e => if e < now then .error .expiredSignature else .ok p
      | none => .ok p
    else .error .badSignature

/-- Model of `jose.jwt.encode(payload, key, algorithm=...)`. -/
def joseEncode (payload : Payload) (key : String) : JoseToken :=
  .valid payload key

/-! Section: auth.py -/

/-- `auth.SECRET_KEY` (the `os.getenv` fallback value). -/
def SECRET_KEY : String := "your-secret-key-change-this-in-production"

/-- `auth.ACCESS_TOKEN_EXPIRE_MINUTES = 60 * 24`. -/
def ACCESS_TOKEN_EXPIRE_MINUTES : Nat := 60 * 24

/-- The claim dictionary passed to `create_access_token` (`data`): the
three identity fields, each an arbitrary JSON scalar when present. -/
structure ClaimsDict where
  user_id : Option JVal
  username : Option JVal
  role : Option JVal
deriving DecidableEq, Repr

/-- `auth.create_access_token`: copies `data`, sets
`exp = now + expires_delta` (default `ACCESS_TOKEN_EXPIRE_MINUTES`
minutes), and signs the result with `SECRET_KEY`.  `now` is the value of
`datetime.utcnow()` at issuance, in seconds; `expires_delta` is in
seconds. -/
def create_access_token (data : ClaimsDict) (expires_delta : Option Nat)
    (now : Nat) : JoseToken :=
  let expire := now + expires_delta.getD (ACCESS_TOKEN_EXPIRE_MINUTES * 60)
  joseEncode ⟨data.user_id, data.username, data.role, some expire⟩ SECRET_KEY

/-- `auth.decode_access_token`: decodes with `jose.jwt.decode` inside a
`try` whose only handler is `except JWTError: return None`; extracts the
three claim fields with `payload.get`, returns `None` if any is absent,
and otherwise builds `TokenData(user_id=..., username=...,
role=UserRole(role))`.  The `UserRole(role)` enum call and the pydantic
field validation run outside any handler, so a `ValueError` or
`ValidationError` there escapes to the caller (`Except.error`). -/
def decode_access_token (token : JoseToken) (now : Nat) :
    Except PyErr (Option TokenData) :=
  match joseDecode token SECRET_KEY now with
  | .error _ => .ok none
  | .ok payload =>
    match payload.user_id, payload.username, payload.role with
    | some uidv, some unv, some rv =>
      match pyUserRole rv with
      | .error e => .error e
      | .ok r =>
        match pydanticInt uidv with
        | .error e => .error e
        | .ok uid =>
          match pydanticStr unv with
          | .error e => .error e
          | .ok un => .ok (some ⟨uid, un, r⟩)
    | _, _, _ => .ok none

/-! Section: queries.py — user rows and user queries -/

/-- A full row of the `users` table. -/
structure UserRow where
  id : Int
  username : String
  password_hash : HashString
  role : String
  is_active : Bool
  created_at : Nat
deriving DecidableEq, Repr

/-- What `get_user_by_id`, `update_user` and `get_all_users` return per
row: their SELECT / RETURNING lists are `id, username, role, is_active,
created_at` — the `password_hash` column is not selected. -/
structure UserPublic where
  id : Int
  username : String
  role : String
  is_active : Bool
  created_at : Nat
deriving DecidableEq, Repr

/-- Projection of a stored row onto the hash-free column list. -/
def toPublic (u : UserRow) : UserPublic :=
  ⟨u.id, u.username, u.role, u.is_active, u.created_at⟩

/-- `queries.get_user_by_username`: `SELECT id, username, password_hash,
role, is_active, created_at FROM users WHERE username = %s`, `fetchone()`.
The hash is included for login verification. -/
def get_user_by_username (db : List UserRow) (username : String) :
    Option UserRow :=
  db.find? (fun u => u.username == username)

/-- `queries.get_user_by_id`: `SELECT id, username, role, is_active,
created_at FROM users WHERE id = %s`, `fetchone()` — no `password_hash`
column. -/
def get_user_by_id (db : List UserRow) (user_id : Int) : Option UserPublic :=
  (db.find? (fun u => u.id == user_id)).map toPublic

/-! Section: auth.py — authenticate_user and the route guard -/

/-- `auth.authenticate_user`: looks the user up by username; absent user
or inactive user yields `None`; otherwise `verify_password` decides
(propagating any exception it raises, since there is no handler); a
mismatch yields `None` and a match yields the full row from
`get_user_by_username` (hash included). -/
def authenticate_user (db : List UserRow) (username password : String) :
    Except PyErr (Option UserRow) :=
  match get_user_by_username db username with
  | none => .ok none
  | some user =>
    if !user.is_active then .ok none
    else
      match verify_password password user.password_hash with
      | .error e => .error e
      | .ok b => if b then .ok (some user) else .ok none

/-- A FastAPI `HTTPException` as raised by the handlers in this app. -/
structure HTTPError where
  status_code : Nat
  detail : String
deriving DecidableEq, Repr

/-- The 401 `credentials_exception` built in `auth.get_current_user`. -/
def credentials_exception : HTTPError :=
  ⟨401, "Could not validate credentials"⟩

/-- `auth.get_current_user`: decodes the bearer token (a `None` result
raises the 401 `credentials_exception`), then re-fetches the referenced
user by id from the live store; a missing row or `is_active = False`
raises the same 401; otherwise the hash-free row is returned to the
route. -/
def get_current_user (db : List UserRow) (token : JoseToken) (now : Nat) :
    Except PyErr (Except HTTPError UserPublic) :=
  match decode_access_token token now with
  | .error e => .error e
  | .ok none => .ok (.error credentials_exception)
  | .ok (some token_data) =>
    match get_user_by_id db token_data.user_id with
    | none => .ok (.error credentials_exception)
    | some user =>
      if user.is_active then .ok (.ok user)
      else .ok (.error credentials_exception)

/-- The `user` object inside the response of `create_token_response`:
only `id`, `username` and `role`. -/
structure TokenUserOut where
  id : Int
  username : String
  role : String
deriving DecidableEq, Repr

/-- The dictionary returned by `auth.create_token_response`. -/
structure TokenResponse where
  access_token : JoseToken
  token_type : String
  user : TokenUserOut
deriving DecidableEq, Repr

/-- `auth.create_token_response`: signs a token over `user_id`, `username`
and `role` (default expiry) and returns it with the `user` summary. -/
def create_token_response (user : UserRow) (now : Nat) : TokenResponse :=
  { access_token :=
      create_access_token
        ⟨some (.jnum user.id), some (.jstr user.username),
         some (.jstr user.role)⟩ none now,
    token_type := "bearer",
    user := ⟨user.id, user.username, user.role⟩ }

/-- `main.login`: authenticates the credentials; a `None` result raises
401 "Incorrect username or password"; success returns
`create_token_response(user)`. -/
def login (db : List UserRow) (username password : String) (now : Nat) :
    Except PyErr (Except HTTPError TokenResponse) :=
  match authenticate_user db username password with
  | .error e => .error e
  | .ok none => .ok (.error ⟨401, "Incorrect username or password"⟩)
  | .ok (some user) => .ok (.ok (create_token_response user now))

/-! Section: queries.py — dynamic SET-clause construction

Every `update_*` function in `queries.py` builds its `SET` clause
dynamically: one `column = %s` assignment per argument that is not
`None`.  We mirror that structure with one column-assignment type per
table and a fold interpreting the assignment list on a row. -/

/-- A `column = %s` assignment of the dynamic `UPDATE users` query. -/
inductive UserCol where
  | role (v : String)
  | isActive (v : Bool)
deriving DecidableEq, Repr

/-- Execute a list of `SET` assignments on a `users` row. -/
def applyUserSets (sets : List UserCol) (u : UserRow) : UserRow :=
  sets.foldl
    (fun u s =>
      match s with
      | .role v => { u with role := v }
      | .isActive v => { u with is_active := v })
    u

/-- `queries.update_user`: collects the non-`None` arguments into the
`SET` clause; with an empty clause it returns `None` without touching the
store; otherwise it runs `UPDATE users SET ... WHERE id = %s RETURNING
id, username, role, is_active, created_at` and `fetchone()` gives the
updated row, or `None` when no row matched. -/
def update_user (db : List UserRow) (user_id : Int) (role : Option String)
    (is_active : Option Bool) : Option UserPublic × List UserRow :=
  let sets :=
    (match role with | some r => [UserCol.role r] | none => []) ++
    (match is_active with | some a => [UserCol.isActive a] | none => [])
  if sets.isEmpty then (none, db)
  else
    ((db.find? (fun u => u.id == user_id)).map
       (fun u => toPublic (applyUserSets sets u)),
     db.map (fun u => if u.id == user_id then applyUserSets sets u else u))

/-- Insert into a list ordered by a descending `Nat` key (`ORDER BY ...
DESC`). -/
def insertDescBy (key : α → Nat) (x : α) : List α → List α
  | [] => [x]
  | y :: ys => if key y ≤ key x then x :: y :: ys else y :: insertDescBy key x ys

/-- Sort by a descending `Nat` key, modelling `ORDER BY ... DESC`. -/
def orderByDesc (key : α → Nat) : List α → List α
  | [] => []
  | x :: xs => insertDescBy key x (orderByDesc key xs)

/-- Insert into a list ordered by an ascending `String` key. -/
def insertAscBy (key : α → String) (x : α) : List α → List α
  | [] => [x]
  | y :: ys => if key x ≤ key y then x :: y :: ys else y :: insertAscBy key x ys

/-- Sort by an ascending `String` key, modelling `ORDER BY full_name`. -/
def orderByAsc (key : α → String) : List α → List α
  | [] => []
  | x :: xs => insertAscBy key x (orderByAsc key xs)

/-- `queries.get_all_users`: `SELECT id, username, role, is_active,
created_at FROM users ORDER BY created_at DESC`.  The whole body runs
inside `try`, and `except Exception` prints the error and returns the
empty list; `storeFault` models an unexpected storage-layer fault raised
while the query runs. -/
def get_all_users (db : List UserRow) (storeFault : Bool) : List UserPublic :=
  if storeFault then []
  else (orderByDesc (fun u => u.created_at) db).map toPublic

/-- `main.list_all_users` (route body after the admin guard): returns
`[UserResponse(**user) for user in get_all_users(conn)]` as a normal 200
response. -/
def list_all_users (db : List UserRow) (storeFault : Bool) : List UserPublic :=
  get_all_users db storeFault

/-- `main.update_user_info` (route body after the admin guard): passes
`role.value` when a role was supplied and `None` otherwise; a `None`
result from `update_user` raises 404 "User not found or no changes
made". -/
def update_user_info (db : List UserRow) (user_id : Int)
    (role : Option UserRole) (is_active : Option Bool) :
    Except HTTPError UserPublic × List UserRow :=
  match update_user db user_id (role.map UserRole.val) is_active with
  | (none, db2) => (.error ⟨404, "User not found or no changes made"⟩, db2)
  | (some u, db2) => (.ok u, db2)

/-! Section: queries.py — customers -/

/-- A row of the `customers` table. -/
structure CustomerRow where
  id : Int
  full_name : String
  phone : Option String
  email : Option String
  address : Option String
  is_active : Bool
  created_at : Nat
deriving DecidableEq, Repr

/-- A `column = %s` assignment of the dynamic `UPDATE customers` query. -/
inductive CustomerCol where
  | fullName (v : String)
  | phone (v : String)
  | email (v : String)
  | address (v : String)
  | isActive (v : Bool)
deriving DecidableEq, Repr

/-- Execute a list of `SET` assignments on a `customers` row. -/
def applyCustomerSets (sets : List CustomerCol) (c : CustomerRow) : CustomerRow :=
  sets.foldl
    (fun c s =>
      match s with
      | .fullName v => { c with full_name := v }
      | .phone v => { c with phone := some v }
      | .email v => { c with email := some v }
      | .address v => { c with address := some v }
      | .isActive v => { c with is_active := v })
    c

/-- `queries.update_customer`: same dynamic-update pattern as
`update_user`, over the five optional customer fields. -/
def update_customer (db : List CustomerRow) (customer_id : Int)
    (full_name : Option String) (phone : Option String)
    (email : Option String) (address : Option String)
    (is_active : Option Bool) : Option CustomerRow × List CustomerRow :=
  let sets :=
    (match full_name with | some v => [CustomerCol.fullName v] | none => []) ++
    (match phone with | some v => [CustomerCol.phone v] | none => []) ++
    (match email with | some v => [CustomerCol.email v] | none => []) ++
    (match address with | some v => [CustomerCol.address v] | none => []) ++
    (match is_active with | some v => [CustomerCol.isActive v] | none => [])
  if sets.isEmpty then (none, db)
  else
    ((db.find? (fun c => c.id == customer_id)).map (applyCustomerSets sets),
     db.map (fun c => if c.id == customer_id then applyCustomerSets sets c else c))

/-- `queries.get_all_customers`: selects all customer columns, with
`WHERE is_active = TRUE` when `active_only`, `ORDER BY full_name`; any
exception is printed and the empty list is returned. -/
def get_all_customers (db : List CustomerRow) (active_only : Bool)
    (storeFault : Bool) : List CustomerRow :=
  if storeFault then []
  else if active_only then
    orderByAsc (fun c => c.full_name) (db.filter (fun c => c.is_active))
  else
    orderByAsc (fun c => c.full_name) db

/-! Section: queries.py — jobs -/

/-- A row of the `jobs` table.  `updated_at` is auto-touched by a
database trigger on every mutation, as the `update_job` docstring
records. -/
structure JobRow where
  id : Int
  vehicle_id : Int
  assigned_worker : Option Int
  description : String
  status : String
  created_at : Nat
  updated_at : Nat
deriving DecidableEq, Repr

/-- A `column = %s` assignment of the dynamic `UPDATE jobs` query. -/
inductive JobCol where
  | assignedWorker (v : Int)
  | description (v : String)
  | status (v : String)
deriving DecidableEq, Repr

/-- Execute a list of `SET` assignments on a `jobs` row. -/
def applyJobSets (sets : List JobCol) (j : JobRow) : JobRow :=
  sets.foldl
    (fun j s =>
      match s with
      | .assignedWorker v => { j with assigned_worker := some v }
      | .description v => { j with description := v }
      | .status v => { j with status := v })
    j

/-- `queries.update_job`: dynamic-update pattern over `assigned_worker`,
`description` and `status`.  When the `UPDATE` executes, the database
trigger sets `updated_at` to the transaction time `now`; with an empty
`SET` clause no statement runs and nothing is touched. -/
def update_job (db : List JobRow) (now : Nat) (job_id : Int)
    (assigned_worker : Option Int) (description : Option String)
    (status : Option String) : Option JobRow × List JobRow :=
  let sets :=
    (match assigned_worker with | some v => [JobCol.assignedWorker v] | none => []) ++
    (match description with | some v => [JobCol.description v] | none => []) ++
    (match status with | some v => [JobCol.status v] | none => [])
  if sets.isEmpty then (none, db)
  else
    ((db.find? (fun j => j.id == job_id)).map
       (fun j => { applyJobSets sets j with updated_at := now }),
     db.map (fun j =>
       if j.id == job_id then { applyJobSets sets j with updated_at := now }
       else j))

/-! Section: queries.py — invoices -/

/-- A row of the `invoices` table. -/
structure InvoiceRow where
  id : Int
  job_id : Int
  total_amount : Rat
  is_paid : Bool
  created_at : Nat
deriving DecidableEq, Repr

/-- The store state the invoice operations touch: the `jobs` and
`invoices` tables, the `invoices` id sequence, and the transaction
clock. -/
structure InvoicesDB where
  jobs : List JobRow
  invoices : List InvoiceRow
  nextInvoiceId : Int
  now : Nat
deriving DecidableEq, Repr

/-- `queries.create_invoice`.  Modelled from the spec: the database
schema (not under the application source tree) declares `invoices.job_id`
both `UNIQUE` and a foreign key to `jobs`, as the spec's data model and
the `create_invoice` docstring state.  The insert therefore raises
`UniqueViolation` when an invoice for the job already exists — caught
explicitly, rolled back, `None` returned — and `ForeignKeyViolation` when
the job is absent — caught by the generic handler, rolled back, `None`
returned.  A successful insert commits the new row with `is_paid =
FALSE` and returns it. -/
def create_invoice (st : InvoicesDB) (job_id : Int) (total_amount : Rat) :
    Option InvoiceRow × InvoicesDB :=
  if st.invoices.any (fun i => i.job_id == job_id) then
    (none, st)
  else if st.jobs.any (fun j => j.id == job_id) then
    let row : InvoiceRow := ⟨st.nextInvoiceId, job_id, total_amount, false, st.now⟩
    (some row,
     { st with invoices := st.invoices ++ [row],
               nextInvoiceId := st.nextInvoiceId + 1 })
  else (none, st)

/-- `main.create_new_invoice` (route body after the worker guard): a
`None` result from `create_invoice` raises 400 "Failed to create invoice.
Job may not exist or already has an invoice." — the same outcome whether
the job was missing or the invoice already existed. -/
def create_new_invoice (st : InvoicesDB) (job_id : Int) (total_amount : Rat) :
    Except HTTPError InvoiceRow × InvoicesDB :=
  match create_invoice st job_id total_amount with
  | (none, st2) =>
    (.error ⟨400, "Failed to create invoice. Job may not exist or already has an invoice."⟩,
     st2)
  | (some row, st2) => (.ok row, st2)

/-- A `column = %s` assignment of the dynamic `UPDATE invoices` query. -/
inductive InvoiceCol where
  | totalAmount (v : Rat)
  | isPaid (v : Bool)
deriving DecidableEq, Repr

/-- Execute a list of `SET` assignments on an `invoices` row. -/
def applyInvoiceSets (sets : List InvoiceCol) (i : InvoiceRow) : InvoiceRow :=
  sets.foldl
    (fun i s =>
      match s with
      | .totalAmount v => { i with total_amount := v }
      | .isPaid v => { i with is_paid := v })
    i

/-- `queries.update_invoice`: dynamic-update pattern over `total_amount`
and `is_paid`. -/
def update_invoice (db : List InvoiceRow) (invoice_id : Int)
    (total_amount : Option Rat) (is_paid : Option Bool) :
    Option InvoiceRow × List InvoiceRow :=
  let sets :=
    (match total_amount with | some v => [InvoiceCol.totalAmount v] | none => []) ++
    (match is_paid with | some v => [InvoiceCol.isPaid v] | none => [])
  if sets.isEmpty then (none, db)
  else
    ((db.find? (fun i => i.id == invoice_id)).map (applyInvoiceSets sets),
     db.map (fun i => if i.id == invoice_id then applyInvoiceSets sets i else i))

/-- Equality of `Except` results is decidable when both component types
have decidable equality (used to evaluate the embedded operations on
concrete inputs). -/
instance exceptDecEq {ε α : Type} [DecidableEq ε] [DecidableEq α] :
    DecidableEq (Except ε α) := fun x y =>
  match x, y with
  | .error a, .error b =>
    match decEq a b with
    | isTrue h => isTrue (h ▸ rfl)
    | isFalse h => isFalse fun hc => h (Except.error.inj hc)
  | .ok a, .ok b =>
    match decEq a b with
    | isTrue h => isTrue (h ▸ rfl)
    | isFalse h => isFalse fun hc => h (Except.ok.inj hc)
  | .error _, .ok _ => isFalse fun hc => Except.noConfusion hc
  | .ok _, .error _ => isFalse fun hc => Except.noConfusion hc

/-! Section: Concrete store states used by witnesses and counterexamples -/

/-- A demo `users` table: an active worker and a deactivated admin. -/
def demoUsers : List UserRow :=
  [⟨1, "john", .bcrypt "worker123" 7, "worker", true, 100⟩,
   ⟨2, "mary", .bcrypt "marypw" 4, "admin", false, 90⟩]

/-- A demo `users` table whose single user has been deactivated. -/
def demoStaleUsers : List UserRow :=
  [⟨1, "john", .bcrypt "worker123" 7, "worker", false, 100⟩]

/-- A token issued for user 1 (`john`, worker) at time 0 with a
one-hour expiry. -/
def demoToken : JoseToken :=
  create_access_token
    ⟨some (.jnum 1), some (.jstr "john"), some (.jstr "worker")⟩
    (some 3600) 0

/-- A demo completed job. -/
def demoJob : JobRow := ⟨1, 1, none, "brake check", "completed", 10, 20⟩

/-- The demo invoice already recorded for `demoJob`. -/
def demoInvoice : InvoiceRow := ⟨1, 1, 120, false, 30⟩

/-- Invoice store in which job 1 exists and already has an invoice. -/
def invoicedSt : InvoicesDB := ⟨[demoJob], [demoInvoice], 2, 500⟩

/-- Invoice store with no invoice yet (and no job 7). -/
def uninvoicedSt : InvoicesDB := ⟨[demoJob], [], 1, 500⟩

/-- A demo `customers` table. -/
def demoCustomers : List CustomerRow :=
  [⟨1, "Bob", none, none, none, true, 50⟩]

/-! Section: Claims -/

/-- C1: for every store, username and password, `authenticate_user`
returns `None` when no user with that username exists, when the user
exists but is inactive, and when the user is active but the password does
not verify against the stored hash; it returns that user's record when
the user is active and the password verifies. -/
theorem authenticate_user_cases (db : List UserRow) (username password : String) :
    (get_user_by_username db username = none →
      authenticate_user db username password = .ok none) ∧
    (∀ u, get_user_by_username db username = some u → u.is_active = false →
      authenticate_user db username password = .ok none) ∧
    (∀ u, get_user_by_username db username = some u → u.is_active = true →
      verify_password password u.password_hash = .ok false →
      authenticate_user db username password = .ok none) ∧
    (∀ u, get_user_by_username db username = some u → u.is_active = true →
      verify_password password u.password_hash = .ok true →
      authenticate_user db username password = .ok (some u)) := by
  refine ⟨?_, ?_, ?_, ?_⟩
  · intro h
    simp [authenticate_user, h]
  · intro u hu ha
    simp [authenticate_user, hu, ha]
  · intro u hu ha hv
    simp [authenticate_user, hu, ha, hv]
  · intro u hu ha hv
    simp [authenticate_user, hu, ha, hv]

/-- C1 witness: the four cases at a concrete store — unknown username,
deactivated user with the correct password, active user with a wrong
password, active user with the correct password. -/
theorem authenticate_user_cases_witness :
    authenticate_user demoUsers "ghost" "x" = .ok none ∧
    authenticate_user demoUsers "mary" "marypw" = .ok none ∧
    authenticate_user demoUsers "john" "wrong" = .ok none ∧
    authenticate_user demoUsers "john" "worker123" =
      .ok (some ⟨1, "john", .bcrypt "worker123" 7, "worker", true, 100⟩) :=
  ⟨(authenticate_user_cases demoUsers "ghost" "x").1 (by decide),
   (authenticate_user_cases demoUsers "mary" "marypw").2.1
     ⟨2, "mary", .bcrypt "marypw" 4, "admin", false, 90⟩ (by decide) (by decide),
   (authenticate_user_cases demoUsers "john" "wrong").2.2.1
     ⟨1, "john", .bcrypt "worker123" 7, "worker", true, 100⟩
     (by decide) (by decide) (by decide),
   (authenticate_user_cases demoUsers "john" "worker123").2.2.2
     ⟨1, "john", .bcrypt "worker123" 7, "worker", true, 100⟩
     (by decide) (by decide) (by decide)⟩

/-- C3: evaluation of `decode_access_token` at the failing input.  The
token is signed with the server key and unexpired, its `user_id` and
`username` claims are present and well-typed, but the `role` claim is the
string "superuser": `UserRole(role)` raises `ValueError`, which the
function's only handler (`except JWTError`) does not catch, so the
exception escapes instead of the uniform `None` result. -/
theorem decode_access_token_bad_role_raises :
    decode_access_token
      (joseEncode
        ⟨some (.jnum 1), some (.jstr "x"), some (.jstr "superuser"), some 1000⟩
        SECRET_KEY) 0 = .error .valueError := by
  decide

/-- C4: evaluation of `verify_password` at the failing input.  On a hash
string that is not a recognisable bcrypt digest, passlib's
`CryptContext.verify` raises `UnknownHashError`, and `verify_password`
has no handler, so the exception propagates instead of the specified
`False` return. -/
theorem verify_password_malformed_hash_raises :
    verify_password "worker123" (HashString.malformed "not-a-bcrypt-hash") =
      .error .unknownHashError := by
  decide

/-- C5 counterexample: the record `authenticate_user` returns across its
boundary does contain the stored `password_hash` field — the function
returns the row from `get_user_by_username`, whose SELECT list includes
the hash. -/
theorem authenticate_user_returns_hash_cex :
    authenticate_user demoUsers "john" "worker123" =
      .ok (some ⟨1, "john", HashString.bcrypt "worker123" 7, "worker", true, 100⟩) ∧
    (⟨1, "john", HashString.bcrypt "worker123" 7, "worker", true, 100⟩ : UserRow).password_hash =
      HashString.bcrypt "worker123" 7 := by
  decide

/-- C5 (amended): every successful login response is built by
`create_token_response` from the authenticated row: its `user` object
carries only `id`, `username` and `role`, and its token's claims are only
`user_id`, `username` and `role` — the stored hash appears in neither,
so nothing leaving the login boundary contains `password_hash`. -/
theorem login_response_excludes_hash (db : List UserRow)
    (username password : String) (now : Nat) (resp : TokenResponse)
    (hok : login db username password now = .ok (.ok resp)) :
    ∃ u, get_user_by_username db username = some u ∧
      resp.user = ⟨u.id, u.username, u.role⟩ ∧
      resp.access_token =
        create_access_token
          ⟨some (.jnum u.id), some (.jstr u.username), some (.jstr u.role)⟩
          none now := by
  unfold login at hok
  cases hauth : authenticate_user db username password with
  | error e => rw [hauth] at hok; cases hok
  | ok o =>
    rw [hauth] at hok
    cases o with
    | none => simp at hok
    | some u =>
      simp only [Except.ok.injEq, Except.ok.injEq] at hok
      refine ⟨u, ?_, ?_, ?_⟩
      · unfold authenticate_user at hauth
        cases hfind : get_user_by_username db username with
        | none => rw [hfind] at hauth; cases hauth
        | some v =>
          rw [hfind] at hauth
          cases hact : v.is_active with
          | false => simp [hact] at hauth
          | true =>
            simp only [hact, Bool.not_true, Bool.false_eq_true, if_false] at hauth
            cases hver : verify_password password v.password_hash with
            | error e => simp [hver] at hauth
            | ok b =>
              simp [hver] at hauth
              cases b with
              | false => simp at hauth
              | true =>
                simp at hauth
                rw [hauth]
      · rw [← hok]; rfl
      · rw [← hok]; rfl

/-- C5 witness: at the demo store, the successful login for `john`
exposes only id, username and role. -/
theorem login_response_excludes_hash_witness :
    ∃ u, get_user_by_username demoUsers "john" = some u ∧
      (create_token_response
        ⟨1, "john", .bcrypt "worker123" 7, "worker", true, 100⟩ 0).user =
        ⟨u.id, u.username, u.role⟩ ∧
      (create_token_response
        ⟨1, "john", .bcrypt "worker123" 7, "worker", true, 100⟩ 0).access_token =
        create_access_token
          ⟨some (.jnum u.id), some (.jstr u.username), some (.jstr u.role)⟩
          none 0 :=
  login_response_excludes_hash demoUsers "john" "worker123" 0
    (create_token_response ⟨1, "john", .bcrypt "worker123" 7, "worker", true, 100⟩ 0)
    (by decide)

/-- C2: for every store and token, if the token still decodes to a valid
claim set but every stored user with the referenced id is inactive — in
particular when the user has been deleted, so no row matches — then
`get_current_user` rejects the request with the 401
`credentials_exception`: the guard re-fetches the live row by id and does
not trust the claims alone. -/
theorem guard_rejects_inactive_or_deleted (db : List UserRow)
    (token : JoseToken) (now : Nat) (td : TokenData)
    (hdec : decode_access_token token now = .ok (some td))
    (hstale : ∀ u ∈ db, u.id = td.user_id → u.is_active = false) :
    get_current_user db token now = .ok (.error credentials_exception) := by
  unfold get_current_user get_user_by_id
  rw [hdec]
  cases hfind : db.find? (fun u => u.id == td.user_id) with
  | none => simp [hfind]
  | some u =>
    have hmem : u ∈ db := List.mem_of_find?_eq_some hfind
    have hpred := List.find?_some hfind
    have hinact : u.is_active = false := hstale u hmem (by simpa using hpred)
    simp [hfind, toPublic, hinact]

/-- C2 witness: a signature-valid, unexpired token for user 1 is rejected
once the only row for user 1 has `is_active = false`. -/
theorem guard_rejects_inactive_or_deleted_witness :
    get_current_user demoStaleUsers demoToken 50 =
      .ok (.error credentials_exception) :=
  guard_rejects_inactive_or_deleted demoStaleUsers demoToken 50
    ⟨1, "john", .worker⟩ (by decide) (by decide)

/-- C10: every user record `get_current_user` hands to a protected route
is the hash-free projection of a live stored row — `get_user_by_id`
selects only `id`, `username`, `role`, `is_active` and `created_at`, so
the result (of type `UserPublic`) carries no `password_hash` field, and
the row is active. -/
theorem guard_returns_hashless_row (db : List UserRow) (token : JoseToken)
    (now : Nat) (pub : UserPublic)
    (hok : get_current_user db token now = .ok (.ok pub)) :
    ∃ u ∈ db, pub = toPublic u ∧ u.is_active = true := by
  unfold get_current_user get_user_by_id at hok
  cases hdec : decode_access_token token now with
  | error e => rw [hdec] at hok; cases hok
  | ok o =>
    rw [hdec] at hok
    cases o with
    | none => simp at hok
    | some td =>
      cases hfind : db.find? (fun u => u.id == td.user_id) with
      | none => simp [hfind] at hok
      | some u =>
        simp only [hfind, Option.map_some] at hok
        cases hact : u.is_active with
        | false => simp [toPublic, hact] at hok
        | true =>
          simp [toPublic, hact] at hok
          refine ⟨u, List.mem_of_find?_eq_some hfind, ?_, hact⟩
          rw [← hok]
          simp [toPublic, hact]

/-- C10 witness: at the demo store the guard accepts `demoToken` and
returns exactly the five public columns of john's row. -/
theorem guard_returns_hashless_row_witness :
    ∃ u ∈ demoUsers,
      (⟨1, "john", "worker", true, 100⟩ : UserPublic) = toPublic u ∧
      u.is_active = true :=
  guard_returns_hashless_row demoUsers demoToken 50
    ⟨1, "john", "worker", true, 100⟩ (by decide)

/-- C8: round trip of the token codec.  For every well-typed claim set
(user id, username, role) and every positive ttl, the token issued at
time `t0` decodes to exactly those claims at any time before the expiry
instant `t0 + ttl`, and decodes to the uniform invalid result (`None`) at
any time strictly after it. -/
theorem issue_then_decode (uid : Int) (un : String) (ρ : UserRole)
    (ttl t0 t : Nat) (_httl : 0 < ttl) :
    (t < t0 + ttl →
      decode_access_token
        (create_access_token
          ⟨some (.jnum uid), some (.jstr un), some (.jstr ρ.val)⟩
          (some ttl) t0) t = .ok (some ⟨uid, un, ρ⟩)) ∧
    (t0 + ttl < t →
      decode_access_token
        (create_access_token
          ⟨some (.jnum uid), some (.jstr un), some (.jstr ρ.val)⟩
          (some ttl) t0) t = .ok none) := by
  constructor
  · intro hlt
    have hnot : ¬ (t0 + ttl < t) := by omega
    cases ρ <;>
      simp [decode_access_token, create_access_token, joseEncode, joseDecode,
            pyUserRole, pydanticInt, pydanticStr, UserRole.val, hnot]
  · intro hgt
    simp [decode_access_token, create_access_token, joseEncode, joseDecode,
          hgt]

/-- C8 witness: a token for user 1 with a 10-second ttl issued at time 0
decodes to its claims at time 5 and to `None` at time 11. -/
theorem issue_then_decode_witness :
    decode_access_token
      (create_access_token
        ⟨some (.jnum 1), some (.jstr "a"), some (.jstr UserRole.worker.val)⟩
        (some 10) 0) 5 = .ok (some ⟨1, "a", .worker⟩) ∧
    decode_access_token
      (create_access_token
        ⟨some (.jnum 1), some (.jstr "a"), some (.jstr UserRole.worker.val)⟩
        (some 10) 0) 11 = .ok none :=
  ⟨(issue_then_decode 1 "a" .worker 10 0 5 (by decide)).1 (by decide),
   (issue_then_decode 1 "a" .worker 10 0 11 (by decide)).2 (by decide)⟩

/-- C6 counterexample: the rejection of a duplicate invoice is NOT
distinguishable from other failures — creating a second invoice for job 1
(which already has one) and creating an invoice for the nonexistent job 7
produce the identical 400 outcome, while the claim requires a Conflict
outcome distinguishable from a nonexistent-job failure.  (The store is
left unchanged, as the claim's atomicity part states.) -/
theorem duplicate_invoice_same_outcome_as_missing_job_cex :
    (create_new_invoice invoicedSt 1 50).1 = (create_new_invoice uninvoicedSt 7 50).1 ∧
    (create_new_invoice invoicedSt 1 50).1 =
      .error ⟨400, "Failed to create invoice. Job may not exist or already has an invoice."⟩ ∧
    (create_new_invoice invoicedSt 1 50).2 = invoicedSt := by
  decide

/-- C6 (amended): a second invoice for an already-invoiced job is
rejected atomically — `create_invoice` returns no row and leaves the
store (including the first invoice) unchanged, and the route surfaces the
rejection as a 400 failure — but that failure is the same generic
outcome used for a nonexistent job, not a distinguishable Conflict. -/
theorem create_invoice_duplicate_rejected (st : InvoicesDB) (job_id : Int)
    (amt : Rat) (hdup : st.invoices.any (fun i => i.job_id == job_id) = true) :
    create_invoice st job_id amt = (none, st) ∧
    create_new_invoice st job_id amt =
      (.error ⟨400, "Failed to create invoice. Job may not exist or already has an invoice."⟩,
       st) := by
  constructor
  · simp [create_invoice, hdup]
  · simp [create_new_invoice, create_invoice, hdup]

/-- C6 witness: the duplicate insert for job 1 at the demo store. -/
theorem create_invoice_duplicate_rejected_witness :
    create_invoice invoicedSt 1 50 = (none, invoicedSt) ∧
    create_new_invoice invoicedSt 1 50 =
      (.error ⟨400, "Failed to create invoice. Job may not exist or already has an invoice."⟩,
       invoicedSt) :=
  create_invoice_duplicate_rejected invoicedSt 1 50 (by decide)

/-- The value of a nullable column after a dynamic update: the supplied
value when present, the prior stored value otherwise. -/
def updCol (new : Option α) (old : Option α) : Option α :=
  match new with
  | some v => some v
  | none => old

/-- C7: the four update operations are field-wise frame-preserving and
report the empty update.  For users, customers, jobs and invoices: with
no supplied field the operation returns `None` and leaves the store
untouched (and the user route turns that into a 404 "User not found or no
changes made" rather than a success); with at least one supplied field,
the returned row and the stored row change exactly the supplied columns,
every omitted column keeping its prior value (for jobs, `updated_at` is
additionally auto-touched to the transaction time by the database
trigger, as the source records). -/
theorem updates_change_only_supplied_fields :
    (∀ db uid, update_user db uid none none = (none, db)) ∧
    (∀ db cid,
      update_customer db cid none none none none none = (none, db)) ∧
    (∀ db now jid, update_job db now jid none none none = (none, db)) ∧
    (∀ db iid, update_invoice db iid none none = (none, db)) ∧
    (∀ db uid, update_user_info db uid none none =
      (.error ⟨404, "User not found or no changes made"⟩, db)) ∧
    (∀ db uid r a, r.isSome ∨ a.isSome →
      update_user db uid r a =
        ((db.find? (fun u => u.id == uid)).map
           (fun u => ⟨u.id, u.username, r.getD u.role,
                      a.getD u.is_active, u.created_at⟩),
         db.map (fun u =>
           if u.id == uid then
             { u with role := r.getD u.role, is_active := a.getD u.is_active }
           else u))) ∧
    (∀ db cid fn ph em ad ia,
      fn.isSome ∨ ph.isSome ∨ em.isSome ∨ ad.isSome ∨ ia.isSome →
      update_customer db cid fn ph em ad ia =
        ((db.find? (fun c => c.id == cid)).map
           (fun c => ⟨c.id, fn.getD c.full_name, updCol ph c.phone,
                      updCol em c.email, updCol ad c.address,
                      ia.getD c.is_active, c.created_at⟩),
         db.map (fun c =>
           if c.id == cid then
             ⟨c.id, fn.getD c.full_name, updCol ph c.phone, updCol em c.email,
              updCol ad c.address, ia.getD c.is_active, c.created_at⟩
           else c))) ∧
    (∀ db now jid aw ds stt, aw.isSome ∨ ds.isSome ∨ stt.isSome →
      update_job db now jid aw ds stt =
        ((db.find? (fun j => j.id == jid)).map
           (fun j => ⟨j.id, j.vehicle_id, updCol aw j.assigned_worker,
                      ds.getD j.description, stt.getD j.status,
                      j.created_at, now⟩),
         db.map (fun j =>
           if j.id == jid then
             ⟨j.id, j.vehicle_id, updCol aw j.assigned_worker,
              ds.getD j.description, stt.getD j.status, j.created_at, now⟩
           else j))) ∧
    (∀ db iid ta ip, ta.isSome ∨ ip.isSome →
      update_invoice db iid ta ip =
        ((db.find? (fun i => i.id == iid)).map
           (fun i => ⟨i.id, i.job_id, ta.getD i.total_amount,
                      ip.getD i.is_paid, i.created_at⟩),
         db.map (fun i =>
           if i.id == iid then
             ⟨i.id, i.job_id, ta.getD i.total_amount, ip.getD i.is_paid,
              i.created_at⟩
           else i))) := by
  refine ⟨?_, ?_, ?_, ?_, ?_, ?_, ?_, ?_, ?_⟩
  · intro db uid; rfl
  · intro db cid; rfl
  · intro db now jid; rfl
  · intro db iid; rfl
  · intro db uid; rfl
  · intro db uid r a h
    cases r <;> cases a <;> first | rfl | simp at h
  · intro db cid fn ph em ad ia h
    cases fn <;> cases ph <;> cases em <;> cases ad <;> cases ia <;>
      first | rfl | simp at h
  · intro db now jid aw ds stt h
    cases aw <;> cases ds <;> cases stt <;> first | rfl | simp at h
  · intro db iid ta ip h
    cases ta <;> cases ip <;> first | rfl | simp at h

/-- C7 witness: one concrete update per entity, each changing one field
and keeping every other field at its prior value. -/
theorem updates_change_only_supplied_fields_witness :
    update_user demoUsers 1 (some "admin") none =
      (some ⟨1, "john", "admin", true, 100⟩,
       [⟨1, "john", .bcrypt "worker123" 7, "admin", true, 100⟩,
        ⟨2, "mary", .bcrypt "marypw" 4, "admin", false, 90⟩]) ∧
    update_customer demoCustomers 1 none (some "555-1234") none none none =
      (some ⟨1, "Bob", some "555-1234", none, none, true, 50⟩,
       [⟨1, "Bob", some "555-1234", none, none, true, 50⟩]) ∧
    update_job [demoJob] 900 1 none none (some "cancelled") =
      (some ⟨1, 1, none, "brake check", "cancelled", 10, 900⟩,
       [⟨1, 1, none, "brake check", "cancelled", 10, 900⟩]) ∧
    update_invoice [demoInvoice] 1 none (some true) =
      (some ⟨1, 1, 120, true, 30⟩, [⟨1, 1, 120, true, 30⟩]) :=
  ⟨updates_change_only_supplied_fields.2.2.2.2.2.1
     demoUsers 1 (some "admin") none (Or.inl rfl),
   updates_change_only_supplied_fields.2.2.2.2.2.2.1
     demoCustomers 1 none (some "555-1234") none none none
     (Or.inr (Or.inl rfl)),
   updates_change_only_supplied_fields.2.2.2.2.2.2.2.1
     [demoJob] 900 1 none none (some "cancelled")
     (Or.inr (Or.inr rfl)),
   updates_change_only_supplied_fields.2.2.2.2.2.2.2.2
     [demoInvoice] 1 none (some true) (Or.inr rfl)⟩

/-- C9 counterexample: a storage-layer fault during a list operation is
swallowed, not surfaced — on a nonempty store, the faulting run of the
users route and of the customers query return the very same normal
success an empty store would, so the caller cannot tell a fault from an
empty dataset. -/
theorem store_fault_reads_look_empty_cex :
    list_all_users demoUsers true = list_all_users [] false ∧
    demoUsers ≠ [] ∧
    get_all_customers demoCustomers false true =
      get_all_customers [] false false ∧
    demoCustomers ≠ [] := by
  decide

/-- C9 (amended): an unexpected storage-layer fault during
`get_all_users` or `get_all_customers` is logged and swallowed: the query
returns the empty list, so the route responds with a normal success
indistinguishable from an empty dataset. -/
theorem store_fault_reads_return_empty (db : List UserRow)
    (cdb : List CustomerRow) (active_only : Bool) :
    get_all_users db true = [] ∧
    list_all_users db true = [] ∧
    get_all_customers cdb active_only true = [] :=
  ⟨rfl, rfl, rfl⟩

end AutoRepair
